import Mathlib

/-!
# Verification of the academy-manager-front client logic

Shallow embedding of the client-side logic of the `academy-manager-front`
repository (a Next.js/React frontend): the GraphQL client with its
expired-token detection (`src/shared/lib/graphql/client.ts`), the shared
axios `apiClient` with its request/response interceptors, the auth service
(`src/features/auth/services/auth.service.ts`), the `AuthProvider` context
(auth-context), the registration form validation
(`src/features/auth/components/register-form.tsx`), the curso service
(`src/features/cursos/services/curso-service.ts`) and the notification
store (`src/shared/stores/notification-store.ts`).

JavaScript strings are modelled as `String`, with JS truthiness of a
string being "non-empty"; nullable values are `Option`; numbers that the
code only compares and stores are `Int`/`Nat`.  Browser-visible effects
(localStorage, the `token` cookie, navigation) are modelled as explicit
state records threaded through the functions.
-/

/-- Substring test on character lists: `needle` occurs inside `hay`.
Models JavaScript `String.prototype.includes`. -/
def charListContains (hay needle : List Char) : Bool :=
  match hay with
  | [] => needle.isEmpty
  | _ :: t => needle.isPrefixOf hay || charListContains t needle

/-- `strContains hay needle` models `hay.includes(needle)` in JavaScript. -/
def strContains (hay needle : String) : Bool :=
  charListContains hay.data needle.data

/-- JS truthiness of a nullable string: non-null and non-empty. -/
def strTruthy : Option String → Bool
  | some s => s ≠ ""
  | none => false

/-- `s.toLowerCase()`: lowercases character by character (the code only
compares against ASCII keywords). -/
def strToLower (s : String) : String :=
  String.mk (s.data.map Char.toLower)

/-- `splitOnChar sep l` splits `l` at every occurrence of `sep`,
keeping empty segments (the list is never empty). -/
def splitOnChar (sep : Char) : List Char → List (List Char)
  | [] => [[]]
  | c :: t =>
    let r := splitOnChar sep t
    if c = sep then [] :: r
    else
      match r with
      | [] => [[c]]
      | h :: t2 => (c :: h) :: t2

/-- `s.split(sep)` for a one-character separator. -/
def splitString (sep : Char) (s : String) : List String :=
  (splitOnChar sep s.data).map String.mk

/-! ## The browser-visible client state

The code only ever touches the localStorage keys `token` and `user`, the
cookie `token`, and the current location, so the browser state is the
record of exactly those. The `user` localStorage entry holds the
`JSON.stringify` of a `User`; reading it back (`getUserData`) parses it and
returns `null` on a parse failure, which we model by distinguishing
parseable from unparseable stored strings. -/

/-- The `User` record of `src/shared/types/auth.types.ts`. -/
structure User where
  id : String
  email : String
  nombre : String
  rol : String
  deriving DecidableEq, Repr

/-- A value stored under the localStorage key `user`: either the
`JSON.stringify` of a `User` (which `JSON.parse` recovers), or a string
that does not parse back to a user. -/
inductive StoredUser where
  | valid (u : User)
  | invalid (raw : String)
  deriving DecidableEq, Repr

/-- The two localStorage keys the code uses. -/
structure LocalStorage where
  token : Option String
  user : Option StoredUser
  deriving DecidableEq, Repr

/-- Browser-visible state: localStorage, the `token` cookie and the
current navigation target (`router.push` / `window.location.replace`). -/
structure ClientState where
  storage : LocalStorage
  tokenCookie : Option String
  location : Option String
  deriving DecidableEq, Repr

/-! ## `src/shared/lib/graphql/client.ts` -/

/-- `handleTokenExpired`: removes the `token` and `user` localStorage
keys, expires the `token` cookie (two `document.cookie` writes with
`max-age=0` / a 1970 expiry) and replaces the location with `/login`. -/
def handleTokenExpired (_c : ClientState) : ClientState :=
  { storage := { token := none, user := none }
    tokenCookie := none
    location := some "/login" }

/-- One entry of the GraphQL response's `errors` array that is an object:
its optional `message` and optional `extensions.code`. -/
structure GqlErrorEntry where
  message : Option String
  extensionsCode : Option String
  deriving DecidableEq, Repr

/-- The `response` attached to a `ClientError`: its HTTP `status` (if any)
and its `errors` array (if any); an array entry that is not an object is
`none`. -/
structure GqlResponse where
  status : Option Nat
  errors : Option (List (Option GqlErrorEntry))
  deriving DecidableEq, Repr

/-- A `graphql-request` `ClientError` as the code inspects it: a possible
direct numeric `statusCode` property, the error `message`, and the
attached `response`. -/
structure ClientError where
  statusCodeProp : Option Nat
  message : String
  response : Option GqlResponse
  deriving DecidableEq, Repr

/-- The HTTP status code `graphqlRequest` extracts: the direct
`statusCode` property when it is a number, else `response.status`. -/
def ClientError.effectiveStatus (e : ClientError) : Option Nat :=
  match e.statusCodeProp with
  | some n => some n
  | none =>
    match e.response with
    | some r => r.status
    | none => none

/-- Method 3's per-entry test: an `errors` entry that is an object whose
lowercased `message` contains one of the auth keywords or whose
`extensions.code` is `UNAUTHENTICATED` or `UNAUTHORIZED`. -/
def entryHasAuthError : Option GqlErrorEntry → Bool
  | none => false
  | some en =>
    let message := strToLower (en.message.getD "")
    let code := en.extensionsCode.getD ""
    strContains message "expired" ||
    strContains message "invalid token" ||
    strContains message "unauthorized" ||
    strContains message "jwt validation failed" ||
    strContains message "token has expired" ||
    code == "UNAUTHENTICATED" ||
    code == "UNAUTHORIZED"

/-- The `shouldRedirect` computation of `graphqlRequest`, following the
code's three sequential methods: HTTP status 401, auth keywords in the
lowercased error message, then auth indications in the response's
`errors` array. -/
def shouldRedirect (e : ClientError) : Bool :=
  let statusCode := e.effectiveStatus
  if statusCode == some 401 then true
  else
    let errorMessage := strToLower e.message
    if strContains errorMessage "expired" ||
       strContains errorMessage "invalid token" ||
       strContains errorMessage "unauthorized" ||
       strContains errorMessage "jwt validation failed" ||
       strContains errorMessage "token has expired" then true
    else
      match e.response with
      | some r => (r.errors.getD []).any entryHasAuthError
      | none => false

/-- The possible outcomes of `graphqlClient.request` as seen by the
`try`/`catch` in `graphqlRequest`. -/
inductive GqlOutcome (T : Type) where
  | success (v : T)
  | clientError (e : ClientError)
  | otherError (msg : String)
  deriving DecidableEq, Repr

/-- How `graphqlRequest` terminates: rejecting with a fresh `Error`
message, rethrowing the original `ClientError`, or rethrowing a
non-`ClientError` unchanged. -/
inductive GqlFailure where
  | rejected (msg : String)
  | rethrownClient (e : ClientError)
  | rethrownOther (msg : String)
  deriving DecidableEq, Repr

/-- `graphqlRequest`: returns the value on success; on a `ClientError`
classified as an expired token it runs `handleTokenExpired` and rejects
with `Error('Token expirado')`; every other error is rethrown unchanged
and the browser state is untouched. -/
def graphqlRequest {T : Type} (o : GqlOutcome T) (c : ClientState) :
    ClientState × Except GqlFailure T :=
  match o with
  | .success v => (c, .ok v)
  | .clientError e =>
    if shouldRedirect e then
      (handleTokenExpired c, .error (.rejected "Token expirado"))
    else
      (c, .error (.rethrownClient e))
  | .otherError m => (c, .error (.rethrownOther m))

/-! Spec-side restatement of the classification, written as the flat
disjunction of the claim (to be proved equivalent to the sequential
`shouldRedirect` of the code). -/

/-- The five substrings the claim lists. -/
def authKeywords : List String :=
  ["expired", "invalid token", "unauthorized", "jwt validation failed",
   "token has expired"]

/-- The lowercasing-plus-keyword test of the claim. -/
def containsAuthKeyword (s : String) : Bool :=
  authKeywords.any (fun k => strContains (strToLower s) k)

/-- The errors array of a `ClientError`'s response (empty when absent). -/
def ClientError.errorsArray (e : ClientError) : List (Option GqlErrorEntry) :=
  match e.response with
  | some r => r.errors.getD []
  | none => []

/-- The claim's flat classification: status 401, or a keyword in the
lowercased message, or some object entry of the errors array with a
keyword in its lowercased message or an `UNAUTHENTICATED`/`UNAUTHORIZED`
extensions code. -/
def specTokenExpired (e : ClientError) : Prop :=
  e.effectiveStatus = some 401 ∨
  containsAuthKeyword e.message = true ∨
  ∃ en : GqlErrorEntry, (some en) ∈ e.errorsArray ∧
    (containsAuthKeyword (en.message.getD "") = true ∨
     en.extensionsCode = some "UNAUTHENTICATED" ∨
     en.extensionsCode = some "UNAUTHORIZED")

/-! ## The shared axios `apiClient` (`src/shared/lib/api/client.ts`) -/

/-- A request as built by the service layer: method, URL (relative to
`env.apiUrl`) and body. -/
structure ApiRequest (B : Type) where
  method : String
  url : String
  body : B
  deriving DecidableEq, Repr

/-- The request interceptor: in the browser, reads `localStorage` key
`token` and, when truthy, adds `Authorization: Bearer <token>`;
otherwise the headers pass through unchanged. -/
def requestInterceptor (storage : LocalStorage)
    (headers : List (String × String)) : List (String × String) :=
  match storage.token with
  | some token =>
    if token ≠ "" then headers ++ [("Authorization", "Bearer " ++ token)]
    else headers
  | none => headers

/-- The `response` of a failed axios request, when the server answered:
its HTTP status and the optional `data.message`. -/
structure AxiosErrorResponse where
  status : Nat
  dataMessage : Option String
  deriving DecidableEq, Repr

/-- The per-status fallback string of the response interceptor's
`switch`. -/
def statusFallbackMessage (status : Nat) : String :=
  if status = 401 then "No autorizado"
  else if status = 403 then "Acceso denegado"
  else if status = 404 then "Recurso no encontrado"
  else if status = 500 then "Error interno del servidor"
  else "Error: " ++ toString status

/-- The response interceptor's error branch: with no response at all a
fixed connectivity message; otherwise a switch on the status with
`data?.message || <fallback>` in every branch. -/
def responseInterceptorOnError (r : Option AxiosErrorResponse) : String :=
  match r with
  | none => "No se pudo conectar con el servidor. Verifica tu conexión."
  | some resp =>
    match resp.dataMessage with
    | some m => if m ≠ "" then m else statusFallbackMessage resp.status
    | none => statusFallbackMessage resp.status

/-! ## `src/features/auth/services/auth.service.ts` -/

namespace authService

/-- `authService.login`: posts the payload to `/api/auth/login` through
`apiClient`. -/
def login {B : Type} (data : B) : ApiRequest B :=
  { method := "POST", url := "/api/auth/login", body := data }

/-- `authService.register`: posts the payload to `/api/auth/register`
through `apiClient`. -/
def register {B : Type} (data : B) : ApiRequest B :=
  { method := "POST", url := "/api/auth/register", body := data }

end authService

/-! ## The `AuthProvider` context (auth-context)

Fields of the backend's flat `AuthResponse` are modelled as `String`,
where `""` stands for an absent or empty (JS-falsy) field. -/

/-- The backend's flat login response. -/
structure AuthResponse where
  token : String
  tokenType : String
  expiresIn : Int
  email : String
  rol : String
  nombre : String
  deriving DecidableEq, Repr

/-- `setAuthToken`: with a truthy token, writes it to localStorage and to
the `token` cookie; otherwise removes both. -/
def setAuthToken (token : Option String) (c : ClientState) : ClientState :=
  if strTruthy token then
    { c with storage := { c.storage with token := token }, tokenCookie := token }
  else
    { c with storage := { c.storage with token := none }, tokenCookie := none }

/-- `setUserData`: stores `JSON.stringify(user)` under the `user` key, or
removes the key for `null`. -/
def setUserData (user : Option User) (c : ClientState) : ClientState :=
  match user with
  | some u => { c with storage := { c.storage with user := some (.valid u) } }
  | none => { c with storage := { c.storage with user := none } }

/-- `getAuthToken`: `localStorage.getItem('token')`. -/
def getAuthToken (s : LocalStorage) : Option String :=
  s.token

/-- `getUserData`: reads the `user` key and `JSON.parse`s it, returning
`null` when the key is absent, falsy, or does not parse. -/
def getUserData (s : LocalStorage) : Option User :=
  match s.user with
  | some (.valid u) => some u
  | some (.invalid _) => none
  | none => none

/-- The React state of `AuthProvider` together with the browser state it
acts on. -/
structure AuthProviderState where
  token : Option String
  user : Option User
  isLoading : Bool
  client : ClientState
  deriving DecidableEq, Repr

/-- The mount effect: restore the session only when both the stored token
and the stored user exist; delete a stored token that has no user data;
finish with `isLoading = false`. -/
def authInit (c : ClientState) : AuthProviderState :=
  let storedToken := getAuthToken c.storage
  let storedUser := getUserData c.storage
  if strTruthy storedToken && storedUser.isSome then
    { token := storedToken, user := storedUser, isLoading := false, client := c }
  else if strTruthy storedToken && storedUser.isNone then
    { token := none, user := none, isLoading := false,
      client := setAuthToken none c }
  else
    { token := none, user := none, isLoading := false, client := c }

/-- What `authService.login` threw, as the provider's `catch` inspects
it: an `Error` instance, a non-`Error` object with an optional
`response.data.message`, or anything else. -/
inductive ServiceError where
  | jsError (message : String)
  | objWithMessage (m : Option String)
  | other
  deriving DecidableEq, Repr

/-- How the awaited `authService.login` call ended: resolved with a
(possibly null) response, or rejected. -/
inductive LoginOutcome where
  | resolved (r : Option AuthResponse)
  | thrown (e : ServiceError)
  deriving DecidableEq, Repr

/-- The provider's error-message extraction: an `Error`'s own message; a
truthy `response.data.message` on a non-`Error` object; otherwise the
default `'Error al iniciar sesión'`. -/
def extractLoginErrorMessage : ServiceError → String
  | .jsError m => m
  | .objWithMessage (some m) => if m = "" then "Error al iniciar sesión" else m
  | .objWithMessage none => "Error al iniciar sesión"
  | .other => "Error al iniciar sesión"

/-- Steps 2 and 3 of `AuthProvider.login`: validate the response shape
(truthy `token`, `email`, `rol`, `nombre`) and map it to the internal
`User`, whose `id` is the response's `email`. -/
def validateLoginResponse : Option AuthResponse → Except String (String × User)
  | none => .error "Respuesta vacía del servidor"
  | some resp =>
    if resp.token = "" then .error "No se recibió token de autenticación"
    else if resp.email = "" || resp.rol = "" || resp.nombre = "" then
      .error "Datos de usuario incompletos en la respuesta"
    else
      .ok (resp.token,
           { id := resp.email, email := resp.email,
             nombre := resp.nombre, rol := resp.rol })

/-- `AuthProvider.login`: on success sets state, persists token (with
cookie) and user, and pushes `/dashboard`; on any failure clears the
token/user state and the stored token and rethrows an `Error` with the
extracted message. -/
def providerLogin (o : LoginOutcome) (s : AuthProviderState) :
    AuthProviderState × Except String Unit :=
  match o with
  | .thrown e =>
    ({ token := none, user := none, isLoading := false,
       client := setAuthToken none s.client },
     .error (extractLoginErrorMessage e))
  | .resolved r =>
    match validateLoginResponse r with
    | .error m =>
      ({ token := none, user := none, isLoading := false,
         client := setAuthToken none s.client },
       .error m)
    | .ok (authToken, userData) =>
      let c1 := setAuthToken (some authToken) s.client
      let c2 := setUserData (some userData) c1
      ({ token := some authToken, user := some userData, isLoading := false,
         client := { c2 with location := some "/dashboard" } },
       .ok ())

/-- `AuthProvider.logout`: clears state, stored token/cookie and stored
user, and pushes `/login`. -/
def providerLogout (s : AuthProviderState) : AuthProviderState :=
  let c1 := setAuthToken none s.client
  let c2 := setUserData none c1
  { token := none, user := none, isLoading := false,
    client := { c2 with location := some "/login" } }

/-- The provider's externally triggered transitions after mount. -/
inductive AuthEvent where
  | loginAttempt (o : LoginOutcome)
  | logoutEvent
  deriving Repr

/-- One provider transition. -/
def authStep (s : AuthProviderState) : AuthEvent → AuthProviderState
  | .loginAttempt o => (providerLogin o s).1
  | .logoutEvent => providerLogout s

/-- The provider states reached from mount through a sequence of events. -/
def authRun (c : ClientState) (es : List AuthEvent) : AuthProviderState :=
  es.foldl authStep (authInit c)

/-! ## `src/features/auth/components/register-form.tsx`

`registerSchema` uses `z.email`, whose default pattern is
`^(?!\.)(?!.*\.\.)([A-Za-z0-9_'+\-\.]*)[A-Za-z0-9_+-]@([A-Za-z0-9][A-Za-z0-9\-]*\.)+[A-Za-z]{2,}$`;
we implement that pattern directly on characters. -/

/-- ASCII letter or digit. -/
def isAlnumAscii (c : Char) : Bool :=
  ('A' ≤ c && c ≤ 'Z') || ('a' ≤ c && c ≤ 'z') || ('0' ≤ c && c ≤ '9')

/-- ASCII letter. -/
def isAsciiLetter (c : Char) : Bool :=
  ('A' ≤ c && c ≤ 'Z') || ('a' ≤ c && c ≤ 'z')

/-- A character allowed in the email local part before its last
character. -/
def isLocalChar (c : Char) : Bool :=
  isAlnumAscii c || c = '_' || c = '+' || c = '-' || c = '.' ||
  c.toString = "'"

/-- A character allowed as the last character of the local part. -/
def isLocalLastChar (c : Char) : Bool :=
  isAlnumAscii c || c = '_' || c = '+' || c = '-'

/-- A domain-label character after the first. -/
def isLabelChar (c : Char) : Bool :=
  isAlnumAscii c || c = '-'

/-- One domain label: alphanumeric first character, then alphanumerics or
hyphens. -/
def validLabel (s : String) : Bool :=
  match s.data with
  | [] => false
  | c :: rest => isAlnumAscii c && rest.all isLabelChar

/-- The domain of the pattern: one or more labels ending in dots, then a
purely alphabetic top-level part of length at least 2. -/
def validDomain (s : String) : Bool :=
  let parts := splitString '.' s
  match parts.getLast? with
  | none => false
  | some tld =>
    decide (2 ≤ parts.length) &&
    decide (2 ≤ tld.length) && tld.data.all isAsciiLetter &&
    parts.dropLast.all validLabel

/-- `z.email`'s default check: no leading dot, no consecutive dots,
exactly one `@` splitting a non-empty local part (allowed characters,
restricted final character) from a valid domain. -/
def zodEmailCheck (s : String) : Bool :=
  (match s.data with
   | '.' :: _ => false
   | _ => true) &&
  !(strContains s "..") &&
  (match splitString '@' s with
   | [localPart, domain] =>
     decide (1 ≤ localPart.length) &&
     localPart.data.all isLocalChar &&
     (match localPart.data.getLast? with
      | some c => isLocalLastChar c
      | none => false) &&
     validDomain domain
   | _ => false)

/-- The raw values of the registration form's five fields; the `rol`
select yields `""` when nothing is chosen. -/
structure RawRegisterForm where
  email : String
  password : String
  nombre : String
  apellidos : String
  rol : String
  deriving DecidableEq, Repr

/-- The parsed `RegisterFormData` that reaches `handleRegister`. -/
structure RegisterFormData where
  email : String
  password : String
  nombre : String
  apellidos : String
  rol : Option String
  deriving DecidableEq, Repr

/-- The `ROLE_VALUES` constant. -/
def ROLE_VALUES : List String := ["PROFESOR", "ALUMNO", "ADMINISTRATIVO"]

/-- The field errors `registerSchema` collects when applied by the zod
resolver: every field is checked and all failures are gathered as
`(field, message)` pairs; `rol` is first coerced from `""` to `undefined`
by the field's `setValueAs`, and when present must be one of
`ROLE_VALUES` (the enum's message text is library-generated, abbreviated
here). -/
def registerErrs (f : RawRegisterForm) : List (String × String) :=
  (if zodEmailCheck f.email then [] else [("email", "Email inválido")]) ++
  (if 6 ≤ f.password.length then [] else [("password", "Mínimo 6 caracteres")]) ++
  (if 2 ≤ f.nombre.length then [] else [("nombre", "Mínimo 2 caracteres")]) ++
  (if 2 ≤ f.apellidos.length then [] else [("apellidos", "Mínimo 2 caracteres")]) ++
  (match (if f.rol = "" then none else some f.rol : Option String) with
   | none => []
   | some r =>
     if ROLE_VALUES.contains r then [] else [("rol", "Invalid option")])

/-- The zod resolver: parsing succeeds exactly when no field check
failed. -/
def registerSchemaParse (f : RawRegisterForm) :
    Except (List (String × String)) RegisterFormData :=
  if (registerErrs f).isEmpty then
    .ok ⟨f.email, f.password, f.nombre, f.apellidos,
         if f.rol = "" then none else some f.rol⟩
  else .error (registerErrs f)

/-- The outcome of submitting the registration form: either
`handleRegister` runs and `authService.register` sends the request, or
react-hook-form rejects with the field errors and nothing is sent. -/
inductive RegisterSubmitResult where
  | sent (req : ApiRequest RegisterFormData)
  | rejectedWithErrors (errs : List (String × String))
  deriving DecidableEq, Repr

/-- `handleSubmit(handleRegister)`: the resolver gates the submit
handler. -/
def registerFormSubmit (f : RawRegisterForm) : RegisterSubmitResult :=
  match registerSchemaParse f with
  | .ok d => .sent (authService.register d)
  | .error errs => .rejectedWithErrors errs

/-! ## `src/features/cursos/services/curso-service.ts` -/

/-- A `Formato` record as handled client-side; `activo` is `none` when
the GraphQL response carries no such field (the `GetFormatos` query does
not request it). -/
structure Formato where
  idFormato : String
  nombre : String
  descripcion : String
  activo : Option Bool
  deriving DecidableEq, Repr

namespace cursoService

/-- `cursoService.getFormatos` applied to the `formatos` array of the
GraphQL response: spreads each record and sets `activo: true` as a
client-side default, since the query does not request that field. -/
def getFormatos (formatos : List Formato) : List Formato :=
  formatos.map (fun f => { f with activo := some true })

end cursoService

/-! ## `src/shared/stores/notification-store.ts` -/

/-- The caller-facing notification payload (`Omit<Notification, 'id'>`);
`duration` is optional. -/
structure NotificationInput where
  message : String
  type : String
  duration : Option Int
  deriving DecidableEq, Repr

/-- A stored notification. -/
structure Notification where
  id : String
  message : String
  type : String
  duration : Int
  deriving DecidableEq, Repr

/-- `removeNotification`: drops the notification with the given id. -/
def removeNotification (id : String) (l : List Notification) :
    List Notification :=
  l.filter (fun n => n.id ≠ id)

/-- `addNotification`: the id is `Date.now().toString()`, the stored
duration is `notification.duration || 5000` (so `0` and an omitted value
both become `5000`), the notification is appended, and — when the stored
duration is truthy — a `setTimeout` is scheduled that will remove this id
after exactly that duration, returned here as `(id, delay)`. -/
def addNotification (now : Nat) (input : NotificationInput)
    (l : List Notification) : List Notification × Option (String × Int) :=
  let id := toString now
  let dur : Int :=
    match input.duration with
    | some d => if d = 0 then 5000 else d
    | none => 5000
  let newNotification : Notification :=
    { id := id, message := input.message, type := input.type, duration := dur }
  let ns := l ++ [newNotification]
  if dur ≠ 0 then (ns, some (id, dur)) else (ns, none)

/-- The invariant of C8: once loading completes, the provider's token is
non-null exactly when its user is. -/
def authTokenUserInv (s : AuthProviderState) : Prop :=
  (s.token = none ↔ s.user = none) ∧ s.isLoading = false

/-- A login attempt that fails: the service call threw, or the response
is null or lacks a truthy `token`, `email`, `rol` or `nombre`. -/
def isFailedLogin : LoginOutcome → Bool
  | .thrown _ => true
  | .resolved none => true
  | .resolved (some r) =>
    r.token = "" || r.email = "" || r.rol = "" || r.nombre = ""

/-! ## Helper lemmas -/

lemma containsAuthKeyword_eq (s : String) :
    containsAuthKeyword s =
      (strContains (strToLower s) "expired" ||
       strContains (strToLower s) "invalid token" ||
       strContains (strToLower s) "unauthorized" ||
       strContains (strToLower s) "jwt validation failed" ||
       strContains (strToLower s) "token has expired") := by
  simp [containsAuthKeyword, authKeywords, List.any_cons, List.any_nil,
    Bool.or_assoc]

lemma entryHasAuthError_iff (o : Option GqlErrorEntry) :
    entryHasAuthError o = true ↔
      ∃ en : GqlErrorEntry, o = some en ∧
        (containsAuthKeyword (en.message.getD "") = true ∨
         en.extensionsCode = some "UNAUTHENTICATED" ∨
         en.extensionsCode = some "UNAUTHORIZED") := by
  cases o with
  | none => simp [entryHasAuthError]
  | some en =>
    simp only [entryHasAuthError, Option.some.injEq, exists_eq_left',
      containsAuthKeyword_eq, Bool.or_eq_true, beq_iff_eq]
    cases h : en.extensionsCode with
    | none =>
      simp only [Option.getD_none]
      have hne1 : ¬ ("" = "UNAUTHENTICATED") := by decide
      have hne2 : ¬ ("" = "UNAUTHORIZED") := by decide
      tauto
    | some code =>
      simp only [Option.getD_some, Option.some.injEq]
      tauto

lemma shouldRedirect_iff (e : ClientError) :
    shouldRedirect e = true ↔ specTokenExpired e := by
  unfold shouldRedirect specTokenExpired
  by_cases h1 : e.effectiveStatus = some 401
  · simp [h1]
  · have h1' : (e.effectiveStatus == some 401) = false := by
      simp [h1]
    simp only [h1', Bool.false_eq_true, if_false, h1, false_or]
    by_cases h2 : containsAuthKeyword e.message = true
    · have h2' := h2
      rw [containsAuthKeyword_eq] at h2'
      simp only [h2', if_true, true_iff]
      exact Or.inl h2
    · have h2f : containsAuthKeyword e.message = false :=
        Bool.not_eq_true _ ▸ Bool.eq_false_iff.mpr (by
          intro hh; exact h2 hh)
      have h2f' : (strContains (strToLower e.message) "expired" ||
          strContains (strToLower e.message) "invalid token" ||
          strContains (strToLower e.message) "unauthorized" ||
          strContains (strToLower e.message) "jwt validation failed" ||
          strContains (strToLower e.message) "token has expired") = false := by
        rw [← containsAuthKeyword_eq]
        exact h2f
      simp only [h2f', Bool.false_eq_true, if_false, h2f, false_or]
      unfold ClientError.errorsArray
      cases hr : e.response with
      | none => simp
      | some r =>
        simp only [List.any_eq_true, entryHasAuthError_iff]
        constructor
        · rintro ⟨o, hmem, en, rfl, hp⟩
          exact ⟨en, hmem, hp⟩
        · rintro ⟨en, hmem, hp⟩
          exact ⟨some en, hmem, en, rfl, hp⟩

/-! ## C1 -/

/-- C1: for every GraphQL request failing with a `ClientError` classified
as an expired/invalid auth token, `graphqlRequest` clears the `token` and
`user` localStorage keys, expires the `token` cookie, redirects to
`/login`, and rejects with an error whose message is `'Token expirado'`. -/
theorem graphqlRequest_tokenExpired_clears_session_and_redirects
    (T : Type) (e : ClientError) (c : ClientState)
    (h : shouldRedirect e = true) :
    graphqlRequest (T := T) (.clientError e) c =
      ({ storage := { token := none, user := none },
         tokenCookie := none,
         location := some "/login" },
       .error (.rejected "Token expirado")) := by
  simp [graphqlRequest, h, handleTokenExpired]

/-- Witness for C1 at a concrete 401 error and a concrete signed-in
browser state. -/
theorem graphqlRequest_tokenExpired_clears_session_and_redirects_witness :
    shouldRedirect ⟨some 401, "boom", none⟩ = true ∧
    graphqlRequest (T := Unit) (.clientError ⟨some 401, "boom", none⟩)
        ⟨⟨some "tok", some (.valid ⟨"u", "u@a.co", "U", "ALUMNO"⟩)⟩,
         some "tok", none⟩ =
      ({ storage := { token := none, user := none },
         tokenCookie := none,
         location := some "/login" },
       .error (.rejected "Token expirado")) :=
  ⟨by decide,
   graphqlRequest_tokenExpired_clears_session_and_redirects Unit
     ⟨some 401, "boom", none⟩
     ⟨⟨some "tok", some (.valid ⟨"u", "u@a.co", "U", "ALUMNO"⟩)⟩,
      some "tok", none⟩
     (by decide)⟩

/-! ## C2 -/

/-- C2: `graphqlRequest` takes the clear-and-redirect path on a
`ClientError` exactly when the status code is 401, or the lowercased
message contains one of the auth keywords, or some object entry of the
response's errors array matches a keyword or an
`UNAUTHENTICATED`/`UNAUTHORIZED` extensions code; every other error is
rethrown unchanged. -/
theorem shouldRedirect_classification_iff (T : Type) (e : ClientError) :
    (shouldRedirect e = true ↔ specTokenExpired e) ∧
    (∀ c : ClientState, shouldRedirect e = false →
        graphqlRequest (T := T) (.clientError e) c =
          (c, .error (.rethrownClient e))) ∧
    (∀ (m : String) (c : ClientState),
        graphqlRequest (T := T) (.otherError m) c =
          (c, .error (.rethrownOther m))) := by
  refine ⟨shouldRedirect_iff e, ?_, ?_⟩
  · intro c h
    simp [graphqlRequest, h]
  · intro m c
    simp [graphqlRequest]

/-- Witness for C2: a non-auth `ClientError` is rethrown unchanged, a
keyword-bearing one is classified for redirect. -/
theorem shouldRedirect_classification_iff_witness :
    (shouldRedirect ⟨none, "plain failure", none⟩ = false ∧
     graphqlRequest (T := Unit)
        (.clientError ⟨none, "plain failure", none⟩)
        ⟨⟨none, none⟩, none, none⟩ =
       (⟨⟨none, none⟩, none, none⟩,
        .error (.rethrownClient ⟨none, "plain failure", none⟩))) ∧
    shouldRedirect ⟨none, "JWT Validation Failed", none⟩ = true :=
  ⟨⟨by decide,
    (shouldRedirect_classification_iff Unit
        ⟨none, "plain failure", none⟩).2.1
      ⟨⟨none, none⟩, none, none⟩ (by decide)⟩,
   by decide⟩

/-! ## C3 -/

/-- C3 counterexample: localStorage holds `token = ""` (a held value),
yet the interceptor attaches no `Authorization` header, contradicting the
claim that every held `token` value yields a bearer header. -/
theorem requestInterceptor_empty_token_no_header :
    getAuthToken ⟨some "", none⟩ = some "" ∧
    requestInterceptor ⟨some "", none⟩ [("Content-Type", "application/json")] =
      [("Content-Type", "application/json")] := by
  constructor
  · rfl
  · rfl

/-- C3 (amended): `authService.login`/`register` post their payloads to
`/api/auth/login` and `/api/auth/register`; the request interceptor adds
`Authorization: Bearer <token>` exactly when localStorage holds a
non-empty `token`, and otherwise leaves the headers unchanged. -/
theorem authService_endpoints_and_bearer_header
    (B : Type) (p q : B) (storage : LocalStorage)
    (headers : List (String × String)) :
    authService.login p =
      { method := "POST", url := "/api/auth/login", body := p } ∧
    authService.register q =
      { method := "POST", url := "/api/auth/register", body := q } ∧
    (∀ t : String, storage.token = some t → t ≠ "" →
        requestInterceptor storage headers =
          headers ++ [("Authorization", "Bearer " ++ t)]) ∧
    (storage.token = none ∨ storage.token = some "" →
        requestInterceptor storage headers = headers) := by
  refine ⟨rfl, rfl, ?_, ?_⟩
  · intro t ht hne
    simp [requestInterceptor, ht, hne]
  · rintro (ht | ht) <;> simp [requestInterceptor, ht]

/-- Witness for C3 (amended) with a stored token, a missing token and
the two service calls. -/
theorem authService_endpoints_and_bearer_header_witness :
    (authService.login (0 : Nat)).url = "/api/auth/login" ∧
    (authService.register (0 : Nat)).url = "/api/auth/register" ∧
    requestInterceptor ⟨some "abc", none⟩ [] =
      [("Authorization", "Bearer abc")] ∧
    requestInterceptor ⟨none, none⟩ [] = [] := by
  refine ⟨?_, ?_, ?_, ?_⟩
  · exact congrArg ApiRequest.url
      (authService_endpoints_and_bearer_header Nat 0 0 ⟨none, none⟩ []).1
  · exact congrArg ApiRequest.url
      (authService_endpoints_and_bearer_header Nat 0 0 ⟨none, none⟩ []).2.1
  · exact (authService_endpoints_and_bearer_header Nat 0 0
      ⟨some "abc", none⟩ []).2.2.1 "abc" rfl (by decide)
  · exact (authService_endpoints_and_bearer_header Nat 0 0
      ⟨none, none⟩ []).2.2.2 (Or.inl rfl)

/-! ## C4 -/

/-- C4: a login whose backend response carries a truthy token and truthy
`email`, `rol`, `nombre` stores the token and the mapped user (its `id`
is the response email) in React state and localStorage, sets the `token`
cookie, and navigates to `/dashboard`. -/
theorem providerLogin_success_stores_and_navigates
    (resp : AuthResponse) (s : AuthProviderState)
    (htok : resp.token ≠ "") (hem : resp.email ≠ "")
    (hrol : resp.rol ≠ "") (hnom : resp.nombre ≠ "") :
    providerLogin (.resolved (some resp)) s =
      ({ token := some resp.token,
         user := some ⟨resp.email, resp.email, resp.nombre, resp.rol⟩,
         isLoading := false,
         client :=
           { storage :=
               { token := some resp.token,
                 user := some (.valid
                   ⟨resp.email, resp.email, resp.nombre, resp.rol⟩) },
             tokenCookie := some resp.token,
             location := some "/dashboard" } },
       .ok ()) := by
  simp [providerLogin, validateLoginResponse, htok, hem, hrol, hnom,
    setAuthToken, setUserData, strTruthy]

/-- Witness for C4 at a concrete successful backend response. -/
theorem providerLogin_success_stores_and_navigates_witness :
    providerLogin
        (.resolved (some ⟨"jwt1", "Bearer", 3600000, "a@b.co", "ALUMNO", "Ana"⟩))
        ⟨none, none, true, ⟨⟨none, none⟩, none, none⟩⟩ =
      ({ token := some "jwt1",
         user := some ⟨"a@b.co", "a@b.co", "Ana", "ALUMNO"⟩,
         isLoading := false,
         client :=
           { storage :=
               { token := some "jwt1",
                 user := some (.valid ⟨"a@b.co", "a@b.co", "Ana", "ALUMNO"⟩) },
             tokenCookie := some "jwt1",
             location := some "/dashboard" } },
       .ok ()) :=
  providerLogin_success_stores_and_navigates
    ⟨"jwt1", "Bearer", 3600000, "a@b.co", "ALUMNO", "Ana"⟩
    ⟨none, none, true, ⟨⟨none, none⟩, none, none⟩⟩
    (by decide) (by decide) (by decide) (by decide)

/-! ## C6 -/

/-- C6 counterexample: `getFormatos` does not return the remote records
unchanged — the record comes back with a client-side `activo := true`
that the remote API did not return (the query does not request it). -/
theorem getFormatos_not_identity :
    cursoService.getFormatos [⟨"1", "Online", "Clases en linea", none⟩] ≠
      [⟨"1", "Online", "Clases en linea", none⟩] ∧
    (cursoService.getFormatos
        [⟨"1", "Online", "Clases en linea", none⟩]).map Formato.activo =
      [some true] := by
  constructor
  · decide
  · rfl

/-- C6 (amended): `getFormatos` preserves every remotely returned field
(`idFormato`, `nombre`, `descripcion`) of every record, and adds the one
client-side default `activo := true`, which the remote response does not
contain. -/
theorem getFormatos_preserves_fields_sets_activo (l : List Formato) :
    (cursoService.getFormatos l).map Formato.idFormato =
      l.map Formato.idFormato ∧
    (cursoService.getFormatos l).map Formato.nombre = l.map Formato.nombre ∧
    (cursoService.getFormatos l).map Formato.descripcion =
      l.map Formato.descripcion ∧
    ∀ f ∈ cursoService.getFormatos l, f.activo = some true := by
  refine ⟨?_, ?_, ?_, ?_⟩
  · simp [cursoService.getFormatos]
  · simp [cursoService.getFormatos]
  · simp [cursoService.getFormatos]
  · intro f hf
    simp only [cursoService.getFormatos, List.mem_map] at hf
    obtain ⟨a, -, rfl⟩ := hf
    rfl

/-- Witness for C6 (amended) on a concrete two-record response. -/
theorem getFormatos_preserves_fields_sets_activo_witness :
    (cursoService.getFormatos
        [⟨"1", "Online", "d1", none⟩, ⟨"2", "Presencial", "d2", none⟩]).map
        Formato.nombre = ["Online", "Presencial"] ∧
    ∀ f ∈ cursoService.getFormatos
        [⟨"1", "Online", "d1", none⟩, ⟨"2", "Presencial", "d2", none⟩],
      f.activo = some true := by
  constructor
  · have h := (getFormatos_preserves_fields_sets_activo
      [⟨"1", "Online", "d1", none⟩, ⟨"2", "Presencial", "d2", none⟩]).2.1
    rw [h]
    rfl
  · exact (getFormatos_preserves_fields_sets_activo
      [⟨"1", "Online", "d1", none⟩, ⟨"2", "Presencial", "d2", none⟩]).2.2.2

/-! ## C7 -/

/-- C7 counterexample: the server provided a message (the empty string)
with a 401 status, yet the interceptor rejects with the fallback
`'No autorizado'` instead of that message — `data?.message || fallback`
ignores a present-but-empty message. -/
theorem responseInterceptor_empty_message_falls_back :
    responseInterceptorOnError (some ⟨401, some ""⟩) = "No autorizado" ∧
    responseInterceptorOnError (some ⟨401, some ""⟩) ≠ "" := by
  constructor
  · rfl
  · decide

/-- C7 (amended): with no response the interceptor rejects with the fixed
connectivity string; with a response it rejects with the server-provided
message when that is present and non-empty, and otherwise with the status
fallback: `'No autorizado'` (401), `'Acceso denegado'` (403),
`'Recurso no encontrado'` (404), `'Error interno del servidor'` (500),
`'Error: <status>'` for any other status. -/
theorem responseInterceptor_maps_errors (r : Option AxiosErrorResponse) :
    (r = none →
      responseInterceptorOnError r =
        "No se pudo conectar con el servidor. Verifica tu conexión.") ∧
    (∀ (resp : AxiosErrorResponse) (m : String),
      r = some resp → resp.dataMessage = some m → m ≠ "" →
      responseInterceptorOnError r = m) ∧
    (∀ resp : AxiosErrorResponse,
      r = some resp →
      (resp.dataMessage = none ∨ resp.dataMessage = some "") →
      responseInterceptorOnError r = statusFallbackMessage resp.status) ∧
    statusFallbackMessage 401 = "No autorizado" ∧
    statusFallbackMessage 403 = "Acceso denegado" ∧
    statusFallbackMessage 404 = "Recurso no encontrado" ∧
    statusFallbackMessage 500 = "Error interno del servidor" ∧
    (∀ s : Nat, s ≠ 401 → s ≠ 403 → s ≠ 404 → s ≠ 500 →
      statusFallbackMessage s = "Error: " ++ toString s) := by
  refine ⟨?_, ?_, ?_, rfl, rfl, rfl, rfl, ?_⟩
  · rintro rfl
    rfl
  · rintro resp m rfl hm hne
    simp [responseInterceptorOnError, hm, hne]
  · rintro resp rfl (hm | hm) <;> simp [responseInterceptorOnError, hm]
  · intro s h1 h2 h3 h4
    simp [statusFallbackMessage, h1, h2, h3, h4]

/-- Witness for C7 (amended): a connection failure, a non-empty server
message, and an empty message falling back per status. -/
theorem responseInterceptor_maps_errors_witness :
    responseInterceptorOnError none =
      "No se pudo conectar con el servidor. Verifica tu conexión." ∧
    responseInterceptorOnError (some ⟨403, some "Cuenta bloqueada"⟩) =
      "Cuenta bloqueada" ∧
    responseInterceptorOnError (some ⟨404, none⟩) =
      statusFallbackMessage 404 ∧
    statusFallbackMessage 418 = "Error: 418" := by
  refine ⟨?_, ?_, ?_, ?_⟩
  · exact (responseInterceptor_maps_errors none).1 rfl
  · exact (responseInterceptor_maps_errors
      (some ⟨403, some "Cuenta bloqueada"⟩)).2.1
      ⟨403, some "Cuenta bloqueada"⟩ "Cuenta bloqueada" rfl rfl (by decide)
  · exact (responseInterceptor_maps_errors (some ⟨404, none⟩)).2.2.1
      ⟨404, none⟩ rfl (Or.inl rfl)
  · exact (responseInterceptor_maps_errors none).2.2.2.2.2.2.2 418
      (by decide) (by decide) (by decide) (by decide)

/-! ## C10 -/

/-- C10 counterexample: a caller-provided duration of `-1` is truthy in
JavaScript, so it is stored as is — the stored duration is not positive. -/
theorem addNotification_negative_duration_stored :
    (addNotification 0 ⟨"fallo", "error", some (-1)⟩ []).1 =
      [{ id := "0", message := "fallo", type := "error", duration := -1 }] ∧
    ¬ ((0 : Int) < -1) := by
  constructor
  · rfl
  · decide

/-- C10 (amended): every added notification is stored with a non-zero
duration — the caller's duration when truthy (non-zero), `5000` when the
duration is omitted or `0` — and a removal of that notification's id is
always scheduled to fire after exactly the stored duration. -/
theorem addNotification_duration_and_schedule
    (now : Nat) (input : NotificationInput) (l : List Notification) :
    ∃ n : Notification,
      (addNotification now input l).1 = l ++ [n] ∧
      n.id = toString now ∧
      n.message = input.message ∧
      n.type = input.type ∧
      n.duration ≠ 0 ∧
      (input.duration = none → n.duration = 5000) ∧
      (input.duration = some 0 → n.duration = 5000) ∧
      (∀ d : Int, input.duration = some d → d ≠ 0 → n.duration = d) ∧
      (addNotification now input l).2 = some (n.id, n.duration) ∧
      removeNotification n.id (addNotification now input l).1 =
        removeNotification n.id l := by
  cases hd : input.duration with
  | none =>
    refine ⟨⟨toString now, input.message, input.type, 5000⟩,
      ?_, rfl, rfl, rfl, by norm_num, fun _ => rfl, by simp [hd],
      by simp [hd], ?_, ?_⟩
    · simp [addNotification, hd]
    · simp [addNotification, hd]
    · simp [addNotification, removeNotification, hd, List.filter_append]
  | some d =>
    by_cases h0 : d = 0
    · subst h0
      refine ⟨⟨toString now, input.message, input.type, 5000⟩,
        ?_, rfl, rfl, rfl, by norm_num, by simp [hd], fun _ => rfl,
        ?_, ?_, ?_⟩
      · simp [addNotification, hd]
      · intro d2 h h2
        simp only [Option.some.injEq] at h
        exact absurd h.symm h2
      · simp [addNotification, hd]
      · simp [addNotification, removeNotification, hd, List.filter_append]
    · refine ⟨⟨toString now, input.message, input.type, d⟩,
        ?_, rfl, rfl, rfl, h0, by simp [hd], by simp [hd, h0], ?_, ?_, ?_⟩
      · simp [addNotification, hd, h0]
      · intro d2 h _
        simp only [Option.some.injEq] at h
        exact h
      · simp [addNotification, hd, h0]
      · simp [addNotification, removeNotification, hd, h0, List.filter_append]

/-- Witness for C10 (amended) at a concrete caller-provided duration of
`0`, which is stored as `5000` and scheduled. -/
theorem addNotification_duration_and_schedule_witness :
    ∃ n : Notification,
      (addNotification 7 ⟨"hola", "success", some 0⟩ []).1 = [] ++ [n] ∧
      n.duration ≠ 0 ∧
      (addNotification 7 ⟨"hola", "success", some 0⟩ []).2 =
        some (n.id, n.duration) := by
  obtain ⟨n, h1, -, -, -, h5, -, -, -, h9, -⟩ :=
    addNotification_duration_and_schedule 7 ⟨"hola", "success", some 0⟩ []
  exact ⟨n, h1, h5, h9⟩

/-! ## C8 -/

lemma authInit_inv (c : ClientState) : authTokenUserInv (authInit c) := by
  unfold authTokenUserInv authInit
  by_cases h1 : (strTruthy (getAuthToken c.storage) && (getUserData c.storage).isSome) = true
  · simp only [h1, if_true]
    rw [Bool.and_eq_true] at h1
    obtain ⟨ht, hu⟩ := h1
    constructor
    · cases hs : getAuthToken c.storage with
      | none => rw [hs] at ht; exact absurd ht (by simp [strTruthy])
      | some t =>
        cases hu2 : getUserData c.storage with
        | none => rw [hu2] at hu; exact absurd hu (by simp)
        | some u => simp [hs, hu2]
    · trivial
  · simp only [h1, Bool.false_eq_true, if_false]
    by_cases h2 : (strTruthy (getAuthToken c.storage) && (getUserData c.storage).isNone) = true
    · simp [h2]
    · simp [h2]

lemma authStep_inv (s : AuthProviderState) (e : AuthEvent) :
    authTokenUserInv (authStep s e) := by
  cases e with
  | logoutEvent => simp [authStep, providerLogout, authTokenUserInv]
  | loginAttempt o =>
    cases o with
    | thrown err => simp [authStep, providerLogin, authTokenUserInv]
    | resolved r =>
      simp only [authStep, providerLogin]
      cases hv : validateLoginResponse r with
      | error m => simp [authTokenUserInv]
      | ok p => simp [authTokenUserInv]

lemma foldl_authStep_inv (s : AuthProviderState) (hs : authTokenUserInv s)
    (es : List AuthEvent) : authTokenUserInv (es.foldl authStep s) := by
  induction es generalizing s with
  | nil => exact hs
  | cons e rest ih =>
    rw [List.foldl_cons]
    exact ih _ (authStep_inv s e)

lemma authRun_inv (c : ClientState) (es : List AuthEvent) :
    authTokenUserInv (authRun c es) :=
  foldl_authStep_inv _ (authInit_inv c) es

/-- C8: in every state reachable after mount — restoration, any sequence
of login attempts and logouts — the provider's token is non-null iff its
user is, and loading is complete; restoration accepts stored credentials
only when both stored token and stored user exist, a stored token without
user data is deleted, a successful login sets both, and a failed login
clears both (as does logout). -/
theorem authProvider_token_user_invariant
    (c : ClientState) (es : List AuthEvent) :
    ((authRun c es).token = none ↔ (authRun c es).user = none) ∧
    (authRun c es).isLoading = false ∧
    (∀ u : User, strTruthy (getAuthToken c.storage) = true →
      getUserData c.storage = some u →
      (authInit c).token = getAuthToken c.storage ∧
      (authInit c).user = some u) ∧
    (strTruthy (getAuthToken c.storage) = true →
      getUserData c.storage = none →
      (authInit c).token = none ∧ (authInit c).user = none ∧
      (authInit c).client.storage.token = none ∧
      (authInit c).client.tokenCookie = none) ∧
    (∀ (o : LoginOutcome) (s : AuthProviderState),
      (providerLogin o s).2 = .ok () →
      (providerLogin o s).1.token.isSome ∧ (providerLogin o s).1.user.isSome) ∧
    (∀ (o : LoginOutcome) (s : AuthProviderState) (m : String),
      (providerLogin o s).2 = .error m →
      (providerLogin o s).1.token = none ∧ (providerLogin o s).1.user = none) ∧
    (∀ s : AuthProviderState,
      (providerLogout s).token = none ∧ (providerLogout s).user = none) := by
  obtain ⟨hiff, hload⟩ := authRun_inv c es
  refine ⟨hiff, hload, ?_, ?_, ?_, ?_, ?_⟩
  · intro u ht hu
    simp [authInit, ht, hu]
  · intro ht hu
    cases hg : getAuthToken c.storage with
    | none => rw [hg] at ht; exact absurd ht (by simp [strTruthy])
    | some t =>
      rw [hg] at ht
      have htne : t ≠ "" := by simpa [strTruthy] using ht
      simp [authInit, hg, hu, setAuthToken, strTruthy, htne]
  · intro o s hok
    cases o with
    | thrown e => simp [providerLogin] at hok
    | resolved r =>
      cases hv : validateLoginResponse r with
      | error m => simp [providerLogin, hv] at hok
      | ok p =>
        obtain ⟨tok, u⟩ := p
        simp [providerLogin, hv]
  · intro o s m herr
    cases o with
    | thrown e => simp [providerLogin]
    | resolved r =>
      cases hv : validateLoginResponse r with
      | error m2 => simp [providerLogin, hv]
      | ok p =>
        obtain ⟨tok, u⟩ := p
        simp [providerLogin, hv] at herr
  · intro s
    simp [providerLogout]

/-- Witness for C8: a stored token without user data is deleted on mount,
a full stored session is restored, and a failed login clears both. -/
theorem authProvider_token_user_invariant_witness :
    ((authRun ⟨⟨some "tok", none⟩, some "tok", none⟩
        [.loginAttempt (.resolved none)]).token = none ↔
      (authRun ⟨⟨some "tok", none⟩, some "tok", none⟩
        [.loginAttempt (.resolved none)]).user = none) ∧
    (authInit ⟨⟨some "tok", none⟩, some "tok", none⟩).token = none ∧
    (authInit ⟨⟨some "tok", none⟩, some "tok", none⟩).client.storage.token =
      none ∧
    (authInit ⟨⟨some "tok",
        some (.valid ⟨"a@b.co", "a@b.co", "Ana", "ALUMNO"⟩)⟩,
        some "tok", none⟩).user =
      some ⟨"a@b.co", "a@b.co", "Ana", "ALUMNO"⟩ := by
  refine ⟨?_, ?_, ?_, ?_⟩
  · exact (authProvider_token_user_invariant
      ⟨⟨some "tok", none⟩, some "tok", none⟩
      [.loginAttempt (.resolved none)]).1
  · exact ((authProvider_token_user_invariant
      ⟨⟨some "tok", none⟩, some "tok", none⟩ []).2.2.2.1
      (by decide) rfl).1
  · exact ((authProvider_token_user_invariant
      ⟨⟨some "tok", none⟩, some "tok", none⟩ []).2.2.2.1
      (by decide) rfl).2.2.1
  · exact ((authProvider_token_user_invariant
      ⟨⟨some "tok", some (.valid ⟨"a@b.co", "a@b.co", "Ana", "ALUMNO"⟩)⟩,
        some "tok", none⟩ []).2.2.1
      ⟨"a@b.co", "a@b.co", "Ana", "ALUMNO"⟩ (by decide) rfl).2

/-! ## C9 -/

/-- C9: every failed login attempt — the service threw, or the response
is null or lacks `token`, `email`, `rol` or `nombre` — leaves token and
user state null, removes the stored token (and its cookie), and rejects
with an `Error` carrying the extracted message, which defaults to
`'Error al iniciar sesión'`. -/
theorem providerLogin_failure_atomic
    (o : LoginOutcome) (s : AuthProviderState)
    (h : isFailedLogin o = true) :
    (providerLogin o s).1.token = none ∧
    (providerLogin o s).1.user = none ∧
    (providerLogin o s).1.client.storage.token = none ∧
    (providerLogin o s).1.client.tokenCookie = none ∧
    (∃ m : String, (providerLogin o s).2 = .error m) ∧
    (∀ e : ServiceError, o = .thrown e →
      (providerLogin o s).2 = .error (extractLoginErrorMessage e)) ∧
    extractLoginErrorMessage .other = "Error al iniciar sesión" ∧
    (∀ (r : Option AuthResponse) (m : String), o = .resolved r →
      validateLoginResponse r = .error m →
      (providerLogin o s).2 = .error m) := by
  have hval : ∀ (r : Option AuthResponse), o = .resolved r →
      ∃ m, validateLoginResponse r = .error m := by
    rintro r rfl
    cases r with
    | none => exact ⟨_, rfl⟩
    | some resp =>
      simp only [isFailedLogin, Bool.or_eq_true, decide_eq_true_eq] at h
      unfold validateLoginResponse
      rcases h with ((h | h) | h) | h
      · simp [h]
      · simp [h]
        by_cases ht : resp.token = "" <;> simp [ht]
      · simp [h]
        by_cases ht : resp.token = "" <;> simp [ht]
      · simp [h]
        by_cases ht : resp.token = "" <;> simp [ht]
  cases o with
  | thrown e =>
    refine ⟨?_, ?_, ?_, ?_, ⟨extractLoginErrorMessage e, ?_⟩, ?_, rfl, ?_⟩ <;>
      simp [providerLogin, setAuthToken, strTruthy]
  | resolved r =>
    obtain ⟨m, hm⟩ := hval r rfl
    refine ⟨?_, ?_, ?_, ?_, ⟨m, ?_⟩, ?_, rfl, ?_⟩
    · simp [providerLogin, hm, setAuthToken, strTruthy]
    · simp [providerLogin, hm, setAuthToken, strTruthy]
    · simp [providerLogin, hm, setAuthToken, strTruthy]
    · simp [providerLogin, hm, setAuthToken, strTruthy]
    · simp [providerLogin, hm]
    · intro e he
      exact absurd he (by simp)
    · intro r2 m2 heq hv2
      have hr : r = r2 := by
        injection heq with h2
      subst hr
      simp [providerLogin, hv2]

/-- Witness for C9 at a concrete response that lacks the `rol` field. -/
theorem providerLogin_failure_atomic_witness :
    (providerLogin
        (.resolved (some ⟨"jwt1", "Bearer", 1000, "a@b.co", "", "Ana"⟩))
        ⟨some "old", some ⟨"x", "x", "X", "ADMIN"⟩, false,
         ⟨⟨some "old", none⟩, some "old", none⟩⟩).1.token = none ∧
    (providerLogin
        (.resolved (some ⟨"jwt1", "Bearer", 1000, "a@b.co", "", "Ana"⟩))
        ⟨some "old", some ⟨"x", "x", "X", "ADMIN"⟩, false,
         ⟨⟨some "old", none⟩, some "old", none⟩⟩).1.client.storage.token =
      none ∧
    ∃ m : String,
      (providerLogin
          (.resolved (some ⟨"jwt1", "Bearer", 1000, "a@b.co", "", "Ana"⟩))
          ⟨some "old", some ⟨"x", "x", "X", "ADMIN"⟩, false,
           ⟨⟨some "old", none⟩, some "old", none⟩⟩).2 = .error m := by
  obtain ⟨h1, -, h3, -, h5, -⟩ :=
    providerLogin_failure_atomic
      (.resolved (some ⟨"jwt1", "Bearer", 1000, "a@b.co", "", "Ana"⟩))
      ⟨some "old", some ⟨"x", "x", "X", "ADMIN"⟩, false,
       ⟨⟨some "old", none⟩, some "old", none⟩⟩
      (by decide)
  exact ⟨h1, h3, h5⟩

/-! ## C5 -/

lemma registerSchemaParse_ok_iff (f : RawRegisterForm) (d : RegisterFormData) :
    registerSchemaParse f = .ok d ↔
      zodEmailCheck f.email = true ∧ 6 ≤ f.password.length ∧
      2 ≤ f.nombre.length ∧ 2 ≤ f.apellidos.length ∧
      (f.rol = "" ∨ f.rol ∈ ROLE_VALUES) ∧
      d = ⟨f.email, f.password, f.nombre, f.apellidos,
           if f.rol = "" then none else some f.rol⟩ := by
  unfold registerSchemaParse registerErrs
  by_cases hR : f.rol = ""
  · by_cases hE : zodEmailCheck f.email <;>
      by_cases hP : 6 ≤ f.password.length <;>
        by_cases hN : 2 ≤ f.nombre.length <;>
          by_cases hA : 2 ≤ f.apellidos.length <;>
            simp [hR, hE, hP, hN, hA] <;>
              exact eq_comm
  · by_cases hC : f.rol ∈ ROLE_VALUES <;>
      by_cases hE : zodEmailCheck f.email <;>
        by_cases hP : 6 ≤ f.password.length <;>
          by_cases hN : 2 ≤ f.nombre.length <;>
            by_cases hA : 2 ≤ f.apellidos.length <;>
              simp [hR, hC, hE, hP, hN, hA] <;>
                exact eq_comm

lemma registerFormSubmit_rejected_of_mem (f : RawRegisterForm)
    (p : String × String) (hmem : p ∈ registerErrs f) :
    registerFormSubmit f = .rejectedWithErrors (registerErrs f) := by
  have hnil : registerErrs f ≠ [] := List.ne_nil_of_mem hmem
  have hne : (registerErrs f).isEmpty = false := by
    cases hh : registerErrs f with
    | nil => exact absurd hh hnil
    | cons a t => simp
  unfold registerFormSubmit registerSchemaParse
  simp [hne]

/-- C5: the submit handler runs only on inputs whose email passes the zod
email check, whose password has at least 6 characters and whose `nombre`
and `apellidos` have at least 2, with an empty `rol` selection coerced to
`undefined`; an input violating a rule is rejected with the corresponding
field error message and no request is sent. -/
theorem registerForm_validation_gates_submit (f : RawRegisterForm) :
    (∀ req : ApiRequest RegisterFormData, registerFormSubmit f = .sent req →
      zodEmailCheck f.email = true ∧ 6 ≤ f.password.length ∧
      2 ≤ f.nombre.length ∧ 2 ≤ f.apellidos.length ∧
      req = authService.register
        ⟨f.email, f.password, f.nombre, f.apellidos,
         if f.rol = "" then none else some f.rol⟩) ∧
    (zodEmailCheck f.email = false →
      registerFormSubmit f = .rejectedWithErrors (registerErrs f) ∧
      ("email", "Email inválido") ∈ registerErrs f) ∧
    (f.password.length < 6 →
      registerFormSubmit f = .rejectedWithErrors (registerErrs f) ∧
      ("password", "Mínimo 6 caracteres") ∈ registerErrs f) ∧
    (f.nombre.length < 2 →
      registerFormSubmit f = .rejectedWithErrors (registerErrs f) ∧
      ("nombre", "Mínimo 2 caracteres") ∈ registerErrs f) ∧
    (f.apellidos.length < 2 →
      registerFormSubmit f = .rejectedWithErrors (registerErrs f) ∧
      ("apellidos", "Mínimo 2 caracteres") ∈ registerErrs f) := by
  refine ⟨?_, ?_, ?_, ?_, ?_⟩
  · intro req hreq
    unfold registerFormSubmit at hreq
    cases hp : registerSchemaParse f with
    | error errs => rw [hp] at hreq; exact absurd hreq (by simp)
    | ok d =>
      rw [hp] at hreq
      obtain ⟨h1, h2, h3, h4, -, rfl⟩ := (registerSchemaParse_ok_iff f d).mp hp
      refine ⟨h1, h2, h3, h4, ?_⟩
      injection hreq with h5
      exact h5.symm
  · intro hEf
    have hmem : ("email", "Email inválido") ∈ registerErrs f := by
      simp [registerErrs, hEf]
    exact ⟨registerFormSubmit_rejected_of_mem f _ hmem, hmem⟩
  · intro hPf
    have hP : ¬ 6 ≤ f.password.length := by omega
    have hmem : ("password", "Mínimo 6 caracteres") ∈ registerErrs f := by
      simp [registerErrs, hP]
    exact ⟨registerFormSubmit_rejected_of_mem f _ hmem, hmem⟩
  · intro hNf
    have hN : ¬ 2 ≤ f.nombre.length := by omega
    have hmem : ("nombre", "Mínimo 2 caracteres") ∈ registerErrs f := by
      simp [registerErrs, hN]
    exact ⟨registerFormSubmit_rejected_of_mem f _ hmem, hmem⟩
  · intro hAf
    have hA : ¬ 2 ≤ f.apellidos.length := by omega
    have hmem : ("apellidos", "Mínimo 2 caracteres") ∈ registerErrs f := by
      simp [registerErrs, hA]
    exact ⟨registerFormSubmit_rejected_of_mem f _ hmem, hmem⟩

/-- Witness for C5: a fully valid input with no selected role reaches the
service with `rol = undefined`; a five-character password is rejected
with its field message. -/
theorem registerForm_validation_gates_submit_witness :
    ((registerFormSubmit ⟨"ana@ejemplo.com", "123456", "Ana", "Diaz", ""⟩ =
        .sent (authService.register
          ⟨"ana@ejemplo.com", "123456", "Ana", "Diaz", none⟩)) ∧
      zodEmailCheck "ana@ejemplo.com" = true) ∧
    (registerFormSubmit ⟨"ana@ejemplo.com", "12345", "Ana", "Diaz", ""⟩ =
        .rejectedWithErrors
          (registerErrs ⟨"ana@ejemplo.com", "12345", "Ana", "Diaz", ""⟩) ∧
      ("password", "Mínimo 6 caracteres") ∈
        registerErrs ⟨"ana@ejemplo.com", "12345", "Ana", "Diaz", ""⟩) := by
  constructor
  · constructor
    · rfl
    · exact ((registerForm_validation_gates_submit
        ⟨"ana@ejemplo.com", "123456", "Ana", "Diaz", ""⟩).1
        (authService.register
          ⟨"ana@ejemplo.com", "123456", "Ana", "Diaz", none⟩) rfl).1
  · exact (registerForm_validation_gates_submit
      ⟨"ana@ejemplo.com", "12345", "Ana", "Diaz", ""⟩).2.2.1 (by decide)
